import Mathlib

/-!
Shallow embedding of `lib/commands/toolcontext.c` from the lvm2 repository:
the construction (`create_toolcontext`) and teardown (`destroy_toolcontext`)
of the command context, together with its sub-initializers
(`_init_config`, `_init_logging`, `_process_config`, `_init_dev_cache`,
`_init_filter_components`, `_init_filters`, `_init_formats`).

External collaborators (configuration-tree parser, device-cache service,
filter constructors, pool allocator, dynamic module loader, file system)
are modelled as oracles supplied in environment records: each oracle field
records the outcome the corresponding C call would produce on this run.
The embedded definitions reproduce the branch structure of the C source;
machine-level aspects (fixed-size path buffers written by `lvm_snprintf`)
are modelled by explicit length checks against `PATH_MAX`.
-/

namespace LVM

/-- POSIX `PATH_MAX`, the size of the fixed path buffers in `struct cmd_context`
and of the local buffers `config_file` / `cache_file`. -/
def PATH_MAX : Nat := 4096

/-- Modelled from the spec: `defaults.h` is not part of the excerpt.  The
default system directory; its exact value is immaterial to the theorems,
only that it is a fixed nonempty string. -/
def DEFAULT_SYS_DIR : String := "/etc/lvm"

/-- Modelled from the spec: `defaults.h` is not part of the excerpt.  The
device directory defaults to `/dev` (spec section 8: the device directory
defaults to `/dev/` after the trailing slash is appended). -/
def DEFAULT_DEV_DIR : String := "/dev"

/-- Modelled from the spec: `defaults.h` is not part of the excerpt.
Default proc directory. -/
def DEFAULT_PROC_DIR : String := "/proc"

/-- Modelled from the spec: `defaults.h` is not part of the excerpt.  The
log file is opened in append mode unless `log/overwrite` is configured true,
so the built-in default of the overwrite flag is false (0). -/
def DEFAULT_OVERWRITE : Int := 0

/-- Modelled from the spec: `defaults.h` is not part of the excerpt.  The
default format name resolves to the always-present built-in format
(spec section 8: with an empty configuration the default format resolves to
the built-in fallback format, whose name is fixed by the tool). -/
def DEFAULT_FORMAT : String := "lvm2"

/-- One value of a config-file setting list (`struct config_value`): the
code only distinguishes `CFG_STRING` values from everything else. -/
inductive CfgVal where
  | str (s : String)
  | nonstr
deriving DecidableEq

/-- The configuration keys of the tree that `toolcontext.c` consults
(`cmd->cf->root`).  A `none` field means the key is absent, so the typed
accessors fall back to their built-in defaults.  The tree produced by a
bare `create_config_tree` has every key absent. -/
structure ConfigTree where
  log_overwrite : Option Int := none
  log_file : Option String := none
  devices_dir : Option String := none
  global_proc : Option String := none
  devices_scan : Option (List CfgVal) := none
  devices_types : Option Unit := none
  devices_filter : Option (List CfgVal) := none
  devices_cache : Option String := none
  devices_write_cache_state : Option Int := none
  global_format_libraries : Option (List CfgVal) := none
  global_format : Option String := none
deriving DecidableEq

/-- The empty in-memory tree returned by `create_config_tree` before (or
instead of) any file is read. -/
def emptyTree : ConfigTree := {}

/-- `find_config_int(root, key, '/', default)`: the key's value or the default. -/
def find_config_int (v : Option Int) (d : Int) : Int := v.getD d

/-- `find_config_str(root, key, '/', default)`: the key's value or the default. -/
def find_config_str (v : Option String) (d : String) : String := v.getD d

/-- `lvm_snprintf` into a buffer of size `n` succeeds iff the formatted
string (plus its terminating NUL) fits. -/
def snprintf_fits (n : Nat) (s : String) : Prop := s.length < n

instance (n : Nat) (s : String) : Decidable (snprintf_fits n s) := by
  unfold snprintf_fits; infer_instance

/-- `_get_env_vars` combined with the preceding
`strcpy(cmd->sys_dir, DEFAULT_SYS_DIR)`: the resulting system directory,
or `none` when the `LVM_SYSTEM_DIR` override does not fit the fixed-size
buffer (`lvm_snprintf` returns a negative value and the function fails). -/
def get_env_vars (lvm_system_dir : Option String) : Option String :=
  match lvm_system_dir with
  | none => some DEFAULT_SYS_DIR
  | some e => if snprintf_fits PATH_MAX e then some e else none

/-- Outcome of `stat(config_file, &info)` in `_init_config`. -/
inductive StatRes where
  | found
  | enoent
  | err
deriving DecidableEq

/-- Oracles for the external calls made by `_init_config`. -/
structure ConfigEnv where
  create_tree_ok : Bool
  stat_res : StatRes
  read_ok : Bool
  file_tree : ConfigTree
deriving DecidableEq

/-- Result of `_init_config`: the tree installed in `cmd->cf` and whether
`read_config_file` populated it from disk. -/
structure ConfigResult where
  tree : ConfigTree
  loaded : Bool
deriving DecidableEq

/-- `_init_config`: create the tree; when the system directory is empty no
config file is used at all; otherwise the `<sys_dir>/lvm.conf` path is
formatted (failure of the fixed-size buffer is fatal), a missing file is
accepted with the empty tree, and a present file must be readable. -/
def init_config (sys_dir : String) (env : ConfigEnv) : Option ConfigResult :=
  if env.create_tree_ok = false then none
  else if sys_dir = "" then some ⟨emptyTree, false⟩
  else if ¬ snprintf_fits PATH_MAX (sys_dir ++ "/lvm.conf") then none
  else
    match env.stat_res with
    | StatRes.enoent => some ⟨emptyTree, false⟩
    | StatRes.err => none
    | StatRes.found =>
        if env.read_ok then some ⟨env.file_tree, true⟩ else none

/-- Result of `_init_logging`: the `fopen` mode chosen for the log file and
whether file logging was actually installed (`init_log(_log)` ran). -/
structure LoggingResult where
  open_mode : String
  file_log : Bool
deriving DecidableEq

/-- `_init_logging`: the open mode is `"w"` when `log/overwrite` is set
(nonzero), `"a"` otherwise; when `log/file` is configured the file is
opened, and a failed open is only logged — the function has no failure
result at all. -/
def init_logging (cf : ConfigTree) (fopen_ok : Bool) : LoggingResult :=
  let open_mode := if find_config_int cf.log_overwrite DEFAULT_OVERWRITE ≠ 0 then "w" else "a"
  match cf.log_file with
  | none => ⟨open_mode, false⟩
  | some _ => if fopen_ok then ⟨open_mode, true⟩ else ⟨open_mode, false⟩

/-- `_process_config`: fatal only when the device-directory or
proc-directory path overflows its buffer in `cmd`, or when
`units_to_bytes` rejects the `global/units` specification (oracle
`units_ok`). -/
def process_config (cf : ConfigTree) (units_ok : Bool) : Bool :=
  decide (snprintf_fits PATH_MAX (find_config_str cf.devices_dir DEFAULT_DEV_DIR ++ "/")) &&
  decide (snprintf_fits PATH_MAX (find_config_str cf.global_proc DEFAULT_PROC_DIR)) &&
  units_ok

/-- Oracles for the device-cache service used by `_init_dev_cache`. -/
structure DevCacheEnv where
  init_ok : Bool
  add_dir_ok : String → Bool

/-- Result of `_init_dev_cache`: overall success, whether `dev_cache_init`
itself succeeded, and the directories successfully registered, in order. -/
structure DevCacheResult where
  ok : Bool
  inited : Bool
  registered : List String
deriving DecidableEq

/-- The `for (cv = cn->v; cv; cv = cv->next)` loop of `_init_dev_cache`:
a non-string entry or a failed `dev_cache_add_dir` stops the loop with
failure; otherwise every entry is registered in list order. -/
def add_dirs (add_ok : String → Bool) : List CfgVal → Bool × List String
  | [] => (true, [])
  | CfgVal.nonstr :: _ => (false, [])
  | CfgVal.str s :: rest =>
      if add_ok s then
        let r := add_dirs add_ok rest
        (r.1, s :: r.2)
      else (false, [])

/-- `_init_dev_cache`: initialize the device cache, then register either the
single default directory `/dev` (when `devices/scan` is absent) or every
listed directory. -/
def init_dev_cache (cf : ConfigTree) (env : DevCacheEnv) : DevCacheResult :=
  if env.init_ok = false then ⟨false, false, []⟩
  else
    match cf.devices_scan with
    | none =>
        if env.add_dir_ok "/dev" then ⟨true, true, ["/dev"]⟩
        else ⟨false, true, []⟩
    | some cvs =>
        let r := add_dirs env.add_dir_ok cvs
        ⟨r.1, true, r.2⟩

/-- The filter objects built by the pipeline, with the wrapping structure of
`_init_filter_components` / `_init_filters`. -/
inductive DevFilter where
  | typef
  | regex
  | composite (f1 f2 : DevFilter)
  | persistent (inner : DevFilter) (cache_path : String)
deriving DecidableEq

/-- Oracles for the three filter constructors called by
`_init_filter_components`. -/
structure ComponentsEnv where
  type_ok : Bool
  regex_ok : Bool
  composite_ok : Bool
deriving DecidableEq

/-- `_init_filter_components`: the type filter is always built (fatal on
failure); when `devices/filter` is absent the type filter alone is the
result; otherwise the regex filter is built and composed in front of the
type filter (fatal if either step fails). -/
def init_filter_components (cf : ConfigTree) (env : ComponentsEnv) : Option DevFilter :=
  if env.type_ok = false then none
  else
    match cf.devices_filter with
    | none => some DevFilter.typef
    | some _ =>
        if env.regex_ok = false then none
        else if env.composite_ok = false then none
        else some (DevFilter.composite DevFilter.regex DevFilter.typef)

/-- Oracles for the external calls made by `_init_filters`:
`persistent_filter_create`, `stat` on the cache path (`some mtime` when the
call succeeds), `config_file_timestamp(cmd->cf)`, and the result of
`persistent_filter_load` (consulted only for logging). -/
structure FiltersEnv where
  comp : ComponentsEnv
  persistent_create_ok : Bool
  cache_stat : String → Option Int
  config_timestamp : Int
  load_ok : Bool

/-- Result of `_init_filters`: success flag, the `cmd->dump_filter` flag,
the chosen cache pathname, the installed filter chain (`cmd->filter`),
and whether `persistent_filter_load` was invoked on this run. -/
structure FiltersResult where
  ok : Bool
  dump_filter : Bool
  lvm_cache : String
  filter : Option DevFilter
  load_invoked : Bool
deriving DecidableEq

/-- `_init_filters`: build the component chain, format the default cache
pathname `<sys_dir>/.cache` into a fixed-size buffer (fatal on overflow,
before `devices/cache` is consulted), wrap with the persistent filter,
derive the dump flag from `devices/write_cache_state` and zero it when the
system directory is empty, and invoke `persistent_filter_load` exactly when
`stat` on the cache file succeeds with an mtime strictly newer than the
configuration timestamp (a failed load is only logged). -/
def init_filters (sys_dir : String) (cf : ConfigTree) (env : FiltersEnv) : FiltersResult :=
  match init_filter_components cf env.comp with
  | none => ⟨false, false, "", none, false⟩
  | some f3 =>
      if ¬ snprintf_fits PATH_MAX (sys_dir ++ "/.cache") then
        ⟨false, false, "", none, false⟩
      else
        let lvm_cache := find_config_str cf.devices_cache (sys_dir ++ "/.cache")
        if env.persistent_create_ok = false then
          ⟨false, false, lvm_cache, none, false⟩
        else
          let dump1 := find_config_int cf.devices_write_cache_state 1 != 0
          let dump2 := if sys_dir = "" then false else dump1
          let newer :=
            match env.cache_stat lvm_cache with
            | some m => decide (env.config_timestamp < m)
            | none => false
          ⟨true, dump2, lvm_cache, some (DevFilter.persistent f3 lvm_cache), newer⟩

/-- A format handler (`struct format_type`): its name, optional alias, and
the dynamically loaded module it owns (`fmt->library`, `none` for the
built-in formats). -/
structure FormatType where
  name : String
  alias_name : Option String := none
  library : Option String := none
deriving DecidableEq

/-- Oracles for `_init_formats`: whether `LVM1_INTERNAL` / `HAVE_LIBDL` are
compiled in, the result of `init_lvm1_format`, the outcomes of
`load_shared_library` / `dlsym` / the `init_format` factory per library
path, and the result of `create_text_format`. -/
structure FormatsEnv where
  lvm1_internal : Bool
  lvm1_fmt : Option FormatType
  have_libdl : Bool
  load_ok : String → Bool
  sym_ok : String → Bool
  factory : String → Option FormatType
  text_fmt : Option FormatType

/-- The `global/format_libraries` loop of `_init_formats`: a non-string
entry, a failed module load, a missing `init_format` symbol, or a failing
factory is fatal; each loaded handler records its module as owned. -/
def load_lib_formats (env : FormatsEnv) : List CfgVal → Option (List FormatType)
  | [] => some []
  | CfgVal.nonstr :: _ => none
  | CfgVal.str s :: rest =>
      if env.load_ok s = false then none
      else if env.sym_ok s = false then none
      else
        match env.factory s with
        | none => none
        | some f =>
            match load_lib_formats env rest with
            | none => none
            | some fs => some ({ f with library := some s } :: fs)

/-- The list-building half of `_init_formats`: the optional legacy lvm1
built-in first, then the dynamically loaded formats in config order, then
the built-in text format appended last with no owned module; the pair also
returns the backup format recorded in `cmd->fmt_backup`. -/
def build_formats (cf : ConfigTree) (env : FormatsEnv) : Option (List FormatType × FormatType) :=
  let base : Option (List FormatType) :=
    if env.lvm1_internal then
      match env.lvm1_fmt with
      | none => none
      | some f => some [{ f with library := none }]
    else some []
  match base with
  | none => none
  | some bs =>
      let libs : Option (List FormatType) :=
        if env.have_libdl then
          match cf.global_format_libraries with
          | none => some []
          | some cvs => load_lib_formats env cvs
        else some []
      match libs with
      | none => none
      | some ls =>
          match env.text_fmt with
          | none => none
          | some tf => some (bs ++ ls ++ [{ tf with library := none }], { tf with library := none })

/-- ASCII lower-casing of a code point, as C's `tolower` in the default
locale maps the letters `A`-`Z` (65-90) to `a`-`z`. -/
def tolower_nat (n : Nat) : Nat := if 65 ≤ n ∧ n ≤ 90 then n + 32 else n

/-- Case-insensitive equality of two characters. -/
def char_ieq (a b : Char) : Bool := tolower_nat a.toNat == tolower_nat b.toNat

/-- Case-insensitive equality of two character sequences. -/
def chars_ieq : List Char → List Char → Bool
  | [], [] => true
  | x :: xs, y :: ys => char_ieq x y && chars_ieq xs ys
  | _, _ => false

/-- Case-insensitive string equality, as `!strcasecmp(a, b)`. -/
def strcasecmp_eq (a b : String) : Bool := chars_ieq a.data b.data

/-- The match test of the `list_iterate` loop in `_init_formats`:
`!strcasecmp(fmt->name, format) || (fmt->alias && !strcasecmp(fmt->alias, format))`. -/
def fmt_matches (f : FormatType) (format : String) : Bool :=
  strcasecmp_eq f.name format ||
    (match f.alias_name with
     | some al => strcasecmp_eq al format
     | none => false)

/-- The `list_iterate` scan of `_init_formats`: the first handler whose
name or alias matches case-insensitively, or `none`. -/
def scan_formats : List FormatType → String → Option FormatType
  | [], _ => none
  | f :: rest, format =>
      if fmt_matches f format then some f else scan_formats rest format

/-- Result of `_init_formats`: the handler list `cmd->formats`, the backup
format `cmd->fmt_backup`, and the selected default
`cmd->default_settings.fmt`. -/
structure FormatsResult where
  formats : List FormatType
  fmt_backup : FormatType
  fmt : FormatType
deriving DecidableEq

/-- `_init_formats`: build the handler list, then resolve `global/format`
(default `DEFAULT_FORMAT`) against it; no match is fatal. -/
def init_formats (cf : ConfigTree) (env : FormatsEnv) : Option FormatsResult :=
  match build_formats cf env with
  | none => none
  | some lb =>
      match scan_formats lb.1 (find_config_str cf.global_format DEFAULT_FORMAT) with
      | none => none
      | some f => some ⟨lb.1, lb.2, f⟩

/-- The resources owned by a partially or fully constructed context, at the
granularity of the construction steps of `create_toolcontext`. -/
inductive Resource where
  | cmd_struct
  | config_tree
  | dev_cache
  | filter
  | pool
  | formats
deriving DecidableEq

/-- The context returned by a successful `create_toolcontext`. -/
structure CmdContext where
  sys_dir : String
  cf : ConfigTree
  logging : LoggingResult
  dump_filter : Bool
  filter : Option DevFilter
  formats : List FormatType
  fmt_backup : FormatType
  fmt : FormatType
deriving DecidableEq

/-- Result of `create_toolcontext`: the returned context (or `none`), the
resources successfully constructed up to the exit point, and the resources
the exit path released. -/
structure CreateResult where
  ctx : Option CmdContext
  constructed : List Resource
  released : List Resource
deriving DecidableEq

/-- Oracles for every external call of `create_toolcontext` and its
sub-initializers: the initial `dbg_malloc`, the `LVM_SYSTEM_DIR`
environment variable, `create_dir`, the config / logging / units /
device-cache / filter / format oracles, and `pool_create`. -/
structure ToolEnv where
  malloc_ok : Bool
  lvm_system_dir : Option String
  create_dir_ok : Bool
  cfg : ConfigEnv
  fopen_ok : Bool
  units_ok : Bool
  devcache : DevCacheEnv
  filters : FiltersEnv
  pool_ok : Bool
  fmts : FormatsEnv

/-- `create_toolcontext`: the ordered, fail-fast construction sequence.
Every failing step after the initial allocation jumps to the common
`error:` label, which frees the `cmd` structure and returns NULL — except
the `pool_create` branch, which `return 0`s directly without the
`dbg_free` (reproduced faithfully from the source).  `constructed` tracks
step-granular resources owned at the exit point (resources a failing
sub-step already released internally, such as the config tree freed inside
a failing `_init_config`, are not listed). -/
def create_toolcontext (env : ToolEnv) : CreateResult :=
  if env.malloc_ok = false then ⟨none, [], []⟩
  else
    match get_env_vars env.lvm_system_dir with
    | none => ⟨none, [Resource.cmd_struct], [Resource.cmd_struct]⟩
    | some sys_dir =>
        if sys_dir ≠ "" ∧ env.create_dir_ok = false then
          ⟨none, [Resource.cmd_struct], [Resource.cmd_struct]⟩
        else
          match init_config sys_dir env.cfg with
          | none => ⟨none, [Resource.cmd_struct], [Resource.cmd_struct]⟩
          | some cres =>
              let cf := cres.tree
              let lg := init_logging cf env.fopen_ok
              if process_config cf env.units_ok = false then
                ⟨none, [Resource.cmd_struct, Resource.config_tree], [Resource.cmd_struct]⟩
              else
                let dcr := init_dev_cache cf env.devcache
                let con2 := [Resource.cmd_struct, Resource.config_tree] ++
                  (if dcr.inited then [Resource.dev_cache] else [])
                if dcr.ok = false then ⟨none, con2, [Resource.cmd_struct]⟩
                else
                  let fr := init_filters sys_dir cf env.filters
                  if fr.ok = false then ⟨none, con2, [Resource.cmd_struct]⟩
                  else
                    let con3 := con2 ++ [Resource.filter]
                    if env.pool_ok = false then ⟨none, con3, []⟩
                    else
                      let con4 := con3 ++ [Resource.pool]
                      match init_formats cf env.fmts with
                      | none => ⟨none, con4, [Resource.cmd_struct]⟩
                      | some fres =>
                          ⟨some ⟨sys_dir, cf, lg, fr.dump_filter, fr.filter,
                                 fres.formats, fres.fmt_backup, fres.fmt⟩,
                           con4 ++ [Resource.formats], []⟩

/-- The construction prefix shared by success and the arena branch: the
system directory and configuration tree `create_toolcontext` works with,
or `none` when construction fails before or at `_init_config`. -/
def tool_config (env : ToolEnv) : Option (String × ConfigTree) :=
  if env.malloc_ok = false then none
  else
    match get_env_vars env.lvm_system_dir with
    | none => none
    | some sys_dir =>
        if sys_dir ≠ "" ∧ env.create_dir_ok = false then none
        else
          match init_config sys_dir env.cfg with
          | none => none
          | some cres => some (sys_dir, cres.tree)

/-- Whether the run reaches the `pool_create` call: every step before the
memory-arena allocation succeeds. -/
def reaches_pool (env : ToolEnv) : Bool :=
  match tool_config env with
  | none => false
  | some sc =>
      process_config sc.2 env.units_ok &&
      (init_dev_cache sc.2 env.devcache).ok &&
      (init_filters sc.1 sc.2 env.filters).ok

/-- The run fails exactly at the memory-arena allocation. -/
def arena_alloc_failure (env : ToolEnv) : Bool :=
  reaches_pool env && !env.pool_ok

/-- Whether the whole construction succeeds. -/
def construction_ok (env : ToolEnv) : Bool :=
  reaches_pool env && env.pool_ok &&
    (match tool_config env with
     | none => false
     | some sc => (init_formats sc.2 env.fmts).isSome)

/-- The teardown events of `destroy_toolcontext`, in the order the calls
appear in the source. -/
inductive TEvent where
  | persistent_filter_dump
  | cache_destroy
  | label_exit
  | format_destroy (name : String)
  | dlclose_lib (lib : String)
  | filter_destroy
  | pool_destroy
  | dev_cache_exit
  | destroy_config_tree
  | dbg_free_cmd
  | dump_memory
  | fin_log
  | fin_syslog
  | fclose_log
deriving DecidableEq

/-- `_destroy_formats`: each handler's `destroy` in list order, followed by
`dlclose` of its owned module when present. -/
def destroy_format_events : List FormatType → List TEvent
  | [] => []
  | f :: rest =>
      TEvent.format_destroy f.name ::
        ((match f.library with
          | some lib => [TEvent.dlclose_lib lib]
          | none => []) ++ destroy_format_events rest)

/-- `destroy_toolcontext`: the exact call sequence of the source, as an
event trace, parametrized by the dump flag, the format list, and whether a
log file is open (`_log` non-NULL). -/
def destroy_toolcontext (dump_filter : Bool) (formats : List FormatType)
    (log_open : Bool) : List TEvent :=
  (if dump_filter then [TEvent.persistent_filter_dump] else []) ++
  [TEvent.cache_destroy, TEvent.label_exit] ++
  destroy_format_events formats ++
  [TEvent.filter_destroy, TEvent.pool_destroy, TEvent.dev_cache_exit,
   TEvent.destroy_config_tree, TEvent.dbg_free_cmd, TEvent.dump_memory,
   TEvent.fin_log, TEvent.fin_syslog] ++
  (if log_open then [TEvent.fclose_log] else [])

/-- Modelled from the spec: the teardown order asserted by the
specification sentence — dump first (when flagged), then the device-cache
directory index, then each format handler, then the filter chain root,
then the memory arena, then the configuration tree, then the context
structure, finally the log-file flush/close. -/
def destroy_toolcontext_claimed (dump_filter : Bool) (formats : List FormatType)
    (log_open : Bool) : List TEvent :=
  (if dump_filter then [TEvent.persistent_filter_dump] else []) ++
  [TEvent.dev_cache_exit] ++
  destroy_format_events formats ++
  [TEvent.filter_destroy, TEvent.pool_destroy, TEvent.destroy_config_tree,
   TEvent.dbg_free_cmd, TEvent.fin_log] ++
  (if log_open then [TEvent.fclose_log] else [])

/-- The teardown events the specification sentence speaks about; the other
events of the trace belong to external collaborators the spec leaves out
(`cache_destroy`, `label_exit`, `dump_memory`, `fin_syslog`). -/
def claimEvent : TEvent → Bool
  | TEvent.cache_destroy => false
  | TEvent.label_exit => false
  | TEvent.dump_memory => false
  | TEvent.fin_syslog => false
  | _ => true

/-- A run in which every external call succeeds: no environment override,
the default system directory exists, no config file on disk (so the empty
tree is used), every oracle succeeds, no dynamic formats configured. -/
def envAllOk : ToolEnv where
  malloc_ok := true
  lvm_system_dir := none
  create_dir_ok := true
  cfg := ⟨true, StatRes.enoent, true, emptyTree⟩
  fopen_ok := true
  units_ok := true
  devcache := ⟨true, fun _ => true⟩
  filters := ⟨⟨true, true, true⟩, true, fun _ => none, 0, true⟩
  pool_ok := true
  fmts := ⟨false, none, true, fun _ => true, fun _ => true, fun _ => none,
           some ⟨"lvm2", none, none⟩⟩

/-- The context the all-success run constructs. -/
def ctxAllOk : CmdContext where
  sys_dir := "/etc/lvm"
  cf := emptyTree
  logging := ⟨"a", false⟩
  dump_filter := true
  filter := some (DevFilter.persistent DevFilter.typef "/etc/lvm/.cache")
  formats := [⟨"lvm2", none, none⟩]
  fmt_backup := ⟨"lvm2", none, none⟩
  fmt := ⟨"lvm2", none, none⟩

/-- A system-directory string that fits its own buffer but overflows the
`<sys_dir>/.cache` buffer. -/
def bigSysDir : String := String.mk (List.replicate 4090 'a')

/-- A configuration selecting format name `FOO`. -/
def cfW : ConfigTree := { emptyTree with global_format := some "FOO" }

/-- A format environment registering two handlers, `foo` then `Foo`, both
matching `FOO` case-insensitively. -/
def envW : FormatsEnv :=
  ⟨true, some ⟨"foo", none, none⟩, false, fun _ => true, fun _ => true,
   fun _ => none, some ⟨"Foo", none, none⟩⟩

/-- The spec scenario configuration: `devices/scan = ["/dev", "/mnt/extra"]`. -/
def cfScan : ConfigTree :=
  { emptyTree with devices_scan := some [CfgVal.str "/dev", CfgVal.str "/mnt/extra"] }

/-- A format handler owning a dynamic module, for the teardown trace. -/
def tfmtX : FormatType := ⟨"lvm2", none, some "libfmt.so"⟩

/-- C3: `persistent_filter_load` is invoked if and only if `stat` on the
cache backing file succeeds and the file's modification time is strictly
greater than the configuration source's timestamp; when the modification
time is not strictly newer, load is never invoked (and the persistent
filter therefore starts cold, whatever the file holds). -/
theorem filters_load_iff_cache_newer (sys_dir : String) (cf : ConfigTree)
    (env : FiltersEnv) :
    ((init_filters sys_dir cf env).ok = true →
      ((init_filters sys_dir cf env).load_invoked = true ↔
        ∃ m, env.cache_stat (init_filters sys_dir cf env).lvm_cache = some m ∧
          env.config_timestamp < m)) ∧
    ((∀ m, env.cache_stat (init_filters sys_dir cf env).lvm_cache = some m →
        m ≤ env.config_timestamp) →
      (init_filters sys_dir cf env).load_invoked = false) := by
  unfold init_filters
  cases hc : init_filter_components cf env.comp with
  | none => simp
  | some f3 =>
    by_cases hfit : snprintf_fits PATH_MAX (sys_dir ++ "/.cache")
    · cases hpc : env.persistent_create_ok with
      | false => simp [hfit, hpc]
      | true =>
        simp only [hfit, not_true, if_false, hpc, Bool.true_eq_false, if_neg,
          ite_false, ite_true, not_false_iff]
        cases hs : env.cache_stat (find_config_str cf.devices_cache (sys_dir ++ "/.cache")) with
        | none => simp [hs]
        | some m =>
          constructor
          · intro _
            simp [hs, decide_eq_true_iff]
          · intro h
            have hm := h m rfl
            simp [hs, decide_eq_true_iff]
            omega
    · simp [hfit]

/-- The persistent-filter dump event never occurs among the format-handler
teardown events. -/
lemma dump_not_mem_dfe (fmts : List FormatType) :
    TEvent.persistent_filter_dump ∉ destroy_format_events fmts := by
  induction fmts with
  | nil => simp [destroy_format_events]
  | cons f rest ih => cases hl : f.library <;> simp [destroy_format_events, hl, ih]

/-- C4: with an empty system directory (environment override set to the
empty value), configuration-file loading is skipped entirely — the
installed tree is the empty one, so every setting falls back to its
built-in default — and the persistent-cache dump flag is forced off, so no
cache dump event occurs at shutdown, whatever `devices/write_cache_state`
says. -/
theorem empty_sysdir_disables_config_and_dump (cenv : ConfigEnv)
    (cf : ConfigTree) (env : FiltersEnv) (fmts : List FormatType) (lo : Bool) :
    (init_config "" cenv =
      if cenv.create_tree_ok = true then some ⟨emptyTree, false⟩ else none) ∧
    (init_filters "" cf env).dump_filter = false ∧
    (destroy_toolcontext false fmts lo).contains TEvent.persistent_filter_dump = false := by
  refine ⟨?_, ?_, ?_⟩
  · unfold init_config
    cases cenv.create_tree_ok <;> simp
  · unfold init_filters
    cases hc : init_filter_components cf env.comp with
    | none => rfl
    | some f3 =>
      dsimp only
      split
      · rfl
      · split
        · rfl
        · rfl
  · have hd := dump_not_mem_dfe fmts
    cases lo <;> simp [destroy_toolcontext, List.elem_eq_mem, hd]

/-- C7: filter initialization fails exactly when a filter layer fails to
build — the type filter, or (when `devices/filter` is present) the regex
or composite layer, or the persistent layer — or when the cache pathname
overflows its buffer; the filter is installed exactly on success, and the
outcome of `persistent_filter_load` (the `load_ok` oracle) has no bearing
on success: a failed load only leaves the installed filter cold. -/
theorem filters_fatal_only_on_construction (sys_dir : String) (cf : ConfigTree)
    (env : FiltersEnv) (b : Bool) :
    ((init_filters sys_dir cf env).ok =
      ((init_filter_components cf env.comp).isSome &&
       decide (snprintf_fits PATH_MAX (sys_dir ++ "/.cache")) &&
       env.persistent_create_ok)) ∧
    ((init_filter_components cf env.comp).isSome =
      (env.comp.type_ok &&
        match cf.devices_filter with
        | none => true
        | some _ => env.comp.regex_ok && env.comp.composite_ok)) ∧
    (init_filters sys_dir cf env).filter.isSome = (init_filters sys_dir cf env).ok ∧
    (init_filters sys_dir cf { env with load_ok := b }).ok =
      (init_filters sys_dir cf env).ok := by
  obtain ⟨comp, pco, cs, ts, lk⟩ := env
  refine ⟨?_, ?_, ?_, rfl⟩
  · unfold init_filters
    cases hc : init_filter_components cf comp with
    | none => simp
    | some f3 =>
      dsimp only
      by_cases hfit : snprintf_fits PATH_MAX (sys_dir ++ "/.cache")
      · cases pco <;> simp [hfit]
      · simp [hfit]
  · unfold init_filter_components
    obtain ⟨t, r, c⟩ := comp
    cases t <;> cases r <;> cases c <;> cases cf.devices_filter <;> simp
  · unfold init_filters
    cases hc : init_filter_components cf comp with
    | none => rfl
    | some f3 =>
      dsimp only
      split
      · rfl
      · split
        · rfl
        · rfl

/-- C9: the default cache pathname `<sys_dir>/.cache` is formatted into a
fixed-size buffer before `devices/cache` is consulted, so whenever the
system-directory string is long enough to overflow that buffer, filter
initialization — and with it context construction — fails fatally even
though `devices/cache` explicitly configures some other cache path. -/
theorem cache_path_overflow_precedes_override (sys_dir : String)
    (cf : ConfigTree) (env : FiltersEnv) (p : String)
    (hover : PATH_MAX ≤ (sys_dir ++ "/.cache").length)
    (_hcache : cf.devices_cache = some p) :
    (init_filters sys_dir cf env).ok = false := by
  unfold init_filters
  cases hc : init_filter_components cf env.comp with
  | none => rfl
  | some f3 =>
    have hnf : ¬ snprintf_fits PATH_MAX (sys_dir ++ "/.cache") := by
      simp only [snprintf_fits]
      omega
    simp [hnf]

/-- The overflow inequality for `bigSysDir`, computed through the length
laws rather than by evaluating the 4090-character string. -/
lemma bigSysDir_overflow : PATH_MAX ≤ (bigSysDir ++ "/.cache").length := by
  have h1 : bigSysDir.length = 4090 := by
    show (List.replicate 4090 'a').length = 4090
    rw [List.length_replicate]
  have h3 : "/.cache".length = 7 := rfl
  rw [String.length_append, h1, h3]
  norm_num [PATH_MAX]

/-- Witness for C9 at a concrete input: a 4090-character system directory
(which itself fits the `PATH_MAX`-sized buffer) overflows the cache-path
buffer, and initialization fails although `devices/cache` is configured to
a short path and every other oracle succeeds. -/
theorem cache_path_overflow_precedes_override_witness :
    PATH_MAX ≤ (bigSysDir ++ "/.cache").length ∧
    (init_filters bigSysDir { emptyTree with devices_cache := some "/tmp/short" }
      ⟨⟨true, true, true⟩, true, fun _ => none, 0, true⟩).ok = false :=
  ⟨bigSysDir_overflow,
   cache_path_overflow_precedes_override bigSysDir
     { emptyTree with devices_cache := some "/tmp/short" }
     ⟨⟨true, true, true⟩, true, fun _ => none, 0, true⟩ "/tmp/short"
     bigSysDir_overflow rfl⟩

/-- C10: when `log/file` is configured, the log file is opened in
truncating mode `"w"` exactly when `log/overwrite` is configured true and
in append mode `"a"` otherwise; a failed open merely leaves file logging
uninstalled (`file_log` is false), and the success of context construction
is unaffected by the outcome of the open — no branch of
`create_toolcontext` aborts on it. -/
theorem log_file_mode_and_nonfatal (cf : ConfigTree) (b : Bool) (tenv : ToolEnv) :
    ((init_logging cf b).open_mode =
      if find_config_int cf.log_overwrite DEFAULT_OVERWRITE ≠ 0 then "w" else "a") ∧
    (init_logging cf b).file_log = (cf.log_file.isSome && b) ∧
    ((create_toolcontext { tenv with fopen_ok := b }).ctx).isSome =
      ((create_toolcontext tenv).ctx).isSome := by
  refine ⟨?_, ?_, ?_⟩
  · unfold init_logging
    cases hf : cf.log_file with
    | none => rfl
    | some p => cases b <;> rfl
  · unfold init_logging
    cases hf : cf.log_file <;> cases b <;> simp [hf]
  · obtain ⟨m, l, c, cfg, fo, u, dc, fi, po, fm⟩ := tenv
    simp only [create_toolcontext]
    repeat' split
    all_goals rfl

/-- The linear scan of `_init_formats` is exactly `List.find?`, hence
returns the first (earliest-registered) matching handler. -/
lemma scan_formats_eq_find (l : List FormatType) (name : String) :
    scan_formats l name = l.find? (fun f => fmt_matches f name) := by
  induction l with
  | nil => rfl
  | cons f rest ih =>
    cases h : fmt_matches f name with
    | false =>
      rw [show scan_formats (f :: rest) name = scan_formats rest name from by
        simp [scan_formats, h]]
      rw [List.find?_cons_of_neg (p := fun g => fmt_matches g name) rest (by simp [h]), ih]
    | true =>
      rw [show scan_formats (f :: rest) name = some f from by
        simp [scan_formats, h]]
      rw [List.find?_cons_of_pos (p := fun g => fmt_matches g name) rest h]

/-- A successful `_init_formats` selects exactly the first handler of the
built list matching the configured name. -/
lemma init_formats_find (cf : ConfigTree) (env : FormatsEnv) (r : FormatsResult) :
    init_formats cf env = some r →
    r.formats.find? (fun f => fmt_matches f (find_config_str cf.global_format DEFAULT_FORMAT)) =
      some r.fmt := by
  intro h
  cases hb : build_formats cf env with
  | none => simp [init_formats, hb] at h
  | some lb =>
    cases hs : scan_formats lb.1 (find_config_str cf.global_format DEFAULT_FORMAT) with
    | none => simp [init_formats, hb, hs] at h
    | some f =>
      simp only [init_formats, hb, hs, Option.some.injEq] at h
      subst h
      rw [← scan_formats_eq_find]
      exact hs

/-- When the built list holds no matching handler, `_init_formats` fails. -/
lemma init_formats_no_match (cf : ConfigTree) (env : FormatsEnv)
    (lb : List FormatType × FormatType) :
    build_formats cf env = some lb →
    lb.1.find? (fun f => fmt_matches f (find_config_str cf.global_format DEFAULT_FORMAT)) = none →
    init_formats cf env = none := by
  intro hb hn
  rw [← scan_formats_eq_find] at hn
  simp [init_formats, hb, hn]

/-- A successful `_init_formats` run came from a successful list build. -/
lemma init_formats_build (cf : ConfigTree) (env : FormatsEnv) (r : FormatsResult) :
    init_formats cf env = some r →
    ∃ lb, build_formats cf env = some lb ∧ lb.1 = r.formats ∧ lb.2 = r.fmt_backup := by
  intro h
  cases hb : build_formats cf env with
  | none => simp [init_formats, hb] at h
  | some lb =>
    cases hs : scan_formats lb.1 (find_config_str cf.global_format DEFAULT_FORMAT) with
    | none => simp [init_formats, hb, hs] at h
    | some f =>
      simp only [init_formats, hb, hs, Option.some.injEq] at h
      subst h
      exact ⟨lb, rfl, rfl, rfl⟩

/-- The list built by `_init_formats` always ends with the text format,
stripped of any module ownership, and that format is the recorded backup. -/
lemma build_formats_shape (cf : ConfigTree) (env : FormatsEnv)
    (lb : List FormatType × FormatType) :
    build_formats cf env = some lb →
    ∃ tf bs ls, env.text_fmt = some tf ∧
      lb.1 = bs ++ ls ++ [{ tf with library := none }] ∧
      lb.2 = { tf with library := none } := by
  intro h
  unfold build_formats at h
  dsimp only at h
  split at h
  · cases h
  · split at h
    · cases h
    · split at h
      · cases h
      · rename_i tf htext
        cases h
        exact ⟨tf, _, _, htext, rfl, rfl⟩

/-- Every context actually returned by `create_toolcontext` carries exactly
the outcome of a successful `_init_formats` on its configuration tree. -/
lemma create_ctx_formats (env : ToolEnv) (c : CmdContext) :
    (create_toolcontext env).ctx = some c →
    init_formats c.cf env.fmts = some ⟨c.formats, c.fmt_backup, c.fmt⟩ := by
  intro h
  unfold create_toolcontext at h
  dsimp only at h
  repeat' split at h
  all_goals try (exfalso; exact Option.noConfusion h)
  all_goals (obtain rfl := Option.some.inj h; assumption)

/-- C5: resolving the configured default format scans the ordered handler
list once and selects the first handler whose name or alias
case-insensitively equals the configured name (so of two matching handlers
the earlier-registered one wins, `List.find?` returning the first match);
when no handler matches, `_init_formats` fails, and every context actually
returned holds a selected format that is the first match — so no context is
ever returned with an unmatched default. -/
theorem default_format_first_match :
    (∀ (cf : ConfigTree) (env : FormatsEnv) (r : FormatsResult),
      init_formats cf env = some r →
      r.formats.find? (fun f => fmt_matches f (find_config_str cf.global_format DEFAULT_FORMAT)) =
        some r.fmt) ∧
    (∀ (cf : ConfigTree) (env : FormatsEnv) (lb : List FormatType × FormatType),
      build_formats cf env = some lb →
      lb.1.find? (fun f => fmt_matches f (find_config_str cf.global_format DEFAULT_FORMAT)) = none →
      init_formats cf env = none) ∧
    (∀ (env : ToolEnv) (c : CmdContext),
      (create_toolcontext env).ctx = some c →
      c.formats.find? (fun f => fmt_matches f (find_config_str c.cf.global_format DEFAULT_FORMAT)) =
        some c.fmt) :=
  ⟨init_formats_find, init_formats_no_match,
   fun env c h =>
     init_formats_find c.cf env.fmts ⟨c.formats, c.fmt_backup, c.fmt⟩
       (create_ctx_formats env c h)⟩

/-- Witness for C5 at a concrete input: with two handlers `foo` and `Foo`
both matching the configured name `FOO`, the scan selects the
earlier-registered `foo`. -/
theorem default_format_first_match_witness :
    [(⟨"foo", none, none⟩ : FormatType), ⟨"Foo", none, none⟩].find?
        (fun f => fmt_matches f (find_config_str cfW.global_format DEFAULT_FORMAT)) =
      some ⟨"foo", none, none⟩ :=
  default_format_first_match.1 cfW envW
    ⟨[⟨"foo", none, none⟩, ⟨"Foo", none, none⟩], ⟨"Foo", none, none⟩, ⟨"foo", none, none⟩⟩
    (by decide)

/-- C6: in every successfully constructed context the format list ends with
the always-present built-in text format: the list splits as the optional
legacy built-in, then the dynamically loaded formats, then the text format
appended last, owning no dynamic module, and recorded as the backup
format. -/
theorem builtin_format_last (env : ToolEnv) (c : CmdContext)
    (h : (create_toolcontext env).ctx = some c) :
    ∃ tf bs ls, env.fmts.text_fmt = some tf ∧
      c.formats = bs ++ ls ++ [{ tf with library := none }] ∧
      c.formats.getLast? = some { tf with library := none } ∧
      c.fmt_backup = { tf with library := none } ∧
      c.fmt_backup.library = none := by
  obtain ⟨lb, hb, h1, h2⟩ := init_formats_build _ _ _ (create_ctx_formats env c h)
  obtain ⟨tf, bs, ls, htext, hl1, hl2⟩ := build_formats_shape _ _ _ hb
  have h1' : lb.1 = c.formats := h1
  have h2' : lb.2 = c.fmt_backup := h2
  refine ⟨tf, bs, ls, htext, ?_, ?_, ?_, ?_⟩
  · rw [← h1', hl1]
  · rw [← h1', hl1]
    exact List.getLast?_concat _
  · rw [← h2', hl2]
  · rw [← h2', hl2]

/-- Witness for C6 at the all-success run: the constructed context's format
list ends with the text format, which owns no module and is the backup. -/
theorem builtin_format_last_witness :
    ∃ tf bs ls, envAllOk.fmts.text_fmt = some tf ∧
      ctxAllOk.formats = bs ++ ls ++ [{ tf with library := none }] ∧
      ctxAllOk.formats.getLast? = some { tf with library := none } ∧
      ctxAllOk.fmt_backup = { tf with library := none } ∧
      ctxAllOk.fmt_backup.library = none :=
  builtin_format_last envAllOk ctxAllOk (by decide)

/-- The registration loop succeeds exactly when every entry is a string
whose registration succeeds, and then registers the listed strings in list
order. -/
lemma add_dirs_spec (f : String → Bool) (l : List CfgVal) :
    (add_dirs f l).1 = l.all (fun cv => match cv with
      | CfgVal.str s => f s
      | CfgVal.nonstr => false) ∧
    ((add_dirs f l).1 = true →
      (add_dirs f l).2 = l.filterMap (fun cv => match cv with
        | CfgVal.str s => some s
        | CfgVal.nonstr => none)) := by
  induction l with
  | nil => exact ⟨rfl, fun _ => rfl⟩
  | cons cv rest ih =>
    cases cv with
    | nonstr => simp [add_dirs]
    | str s =>
      by_cases hf : f s = true
      · refine ⟨?_, ?_⟩
        · simp [add_dirs, hf, ih.1]
        · intro hall
          simp only [add_dirs, hf, if_true, ite_true] at hall
          simp [add_dirs, hf, ih.2 hall]
      · have hf' : f s = false := by simpa using hf
        simp [add_dirs, hf']

/-- C8: with `dev_cache_init` succeeding, device-cache directory
initialization registers the single default directory `/dev` when
`devices/scan` is absent (succeeding exactly when that registration
succeeds), and otherwise registers every listed entry in list order,
failing exactly when some entry is not a string or some registration
fails. -/
theorem dev_cache_dirs (cf : ConfigTree) (env : DevCacheEnv)
    (hinit : env.init_ok = true) :
    (cf.devices_scan = none →
      ((init_dev_cache cf env).ok = env.add_dir_ok "/dev" ∧
       (env.add_dir_ok "/dev" = true →
         (init_dev_cache cf env).registered = ["/dev"]))) ∧
    (∀ l, cf.devices_scan = some l →
      ((init_dev_cache cf env).ok = l.all (fun cv => match cv with
          | CfgVal.str s => env.add_dir_ok s
          | CfgVal.nonstr => false) ∧
       ((init_dev_cache cf env).ok = true →
         (init_dev_cache cf env).registered = l.filterMap (fun cv => match cv with
           | CfgVal.str s => some s
           | CfgVal.nonstr => none)))) := by
  constructor
  · intro hscan
    unfold init_dev_cache
    cases hd : env.add_dir_ok "/dev" <;> simp [hinit, hscan, hd]
  · intro l hscan
    unfold init_dev_cache
    simp only [hinit, hscan]
    constructor
    · simpa using (add_dirs_spec env.add_dir_ok l).1
    · intro hok
      simp only [Bool.true_eq_false, if_false, ite_false, ite_true] at hok ⊢
      exact (add_dirs_spec env.add_dir_ok l).2 (by simpa using hok)

/-- Witness for C8 at the spec scenario: both listed directories are
registered, in that order, and the step succeeds. -/
theorem dev_cache_dirs_witness :
    (init_dev_cache cfScan ⟨true, fun _ => true⟩).ok = true ∧
    (init_dev_cache cfScan ⟨true, fun _ => true⟩).registered = ["/dev", "/mnt/extra"] := by
  have h := (dev_cache_dirs cfScan ⟨true, fun _ => true⟩ rfl).2
    [CfgVal.str "/dev", CfgVal.str "/mnt/extra"] rfl
  refine ⟨h.1.trans (by decide), (h.2 (h.1.trans (by decide))).trans (by decide)⟩

/-- Format-handler teardown events are all events the spec sentence speaks
about, so filtering to those events keeps them unchanged. -/
lemma filter_claim_dfe (fmts : List FormatType) :
    (destroy_format_events fmts).filter claimEvent = destroy_format_events fmts := by
  induction fmts with
  | nil => rfl
  | cons f rest ih =>
    cases hl : f.library <;>
      simp [destroy_format_events, hl, claimEvent, List.filter_append, ih]

/-- C2 (amended): restricted to the events the claim orders, the actual
teardown sequence is: the persistent-cache dump first (when the flag is
set), then each format handler with its owned module, then the filter
chain root, then the memory arena, then the device-cache directory index,
then the configuration tree, then the context structure, then the log
flush, and finally the close of an open log file — i.e. the device-cache
index is released after the memory arena, not before the format
handlers. -/
theorem destroy_order (d lo : Bool) (fmts : List FormatType) :
    (destroy_toolcontext d fmts lo).filter claimEvent =
      (if d then [TEvent.persistent_filter_dump] else []) ++
      destroy_format_events fmts ++
      [TEvent.filter_destroy, TEvent.pool_destroy, TEvent.dev_cache_exit,
       TEvent.destroy_config_tree, TEvent.dbg_free_cmd, TEvent.fin_log] ++
      (if lo then [TEvent.fclose_log] else []) := by
  cases d <;> cases lo <;>
    simp [destroy_toolcontext, List.filter_append, filter_claim_dfe, claimEvent]

/-- Counterexample to C2 as stated: in the actual teardown trace the memory
arena (`pool_destroy`) is released before the device-cache directory index
(`dev_cache_exit`), while the claimed order releases the device-cache index
before the format handlers and hence before the arena; consequently the
actual trace, restricted to the claimed events, differs from the claimed
sequence at this concrete input. -/
theorem destroy_order_claim_false :
    (destroy_toolcontext true [tfmtX] true).findIdx
        (fun e => e == TEvent.pool_destroy) <
      (destroy_toolcontext true [tfmtX] true).findIdx
        (fun e => e == TEvent.dev_cache_exit) ∧
    (destroy_toolcontext_claimed true [tfmtX] true).findIdx
        (fun e => e == TEvent.dev_cache_exit) <
      (destroy_toolcontext_claimed true [tfmtX] true).findIdx
        (fun e => e == TEvent.pool_destroy) ∧
    decide ((destroy_toolcontext true [tfmtX] true).filter claimEvent =
      destroy_toolcontext_claimed true [tfmtX] true) = false := by
  decide

/-- Counterexample to C1 as stated: with every step succeeding except the
memory-arena allocation, construction returns no context but releases
nothing at all — not even the context structure — although the context
structure, config tree, device cache and filter chain were constructed; and
on the sibling branch (format-registry failure) the common cleanup path
releases only the context structure, not the other resources constructed
so far.  So the arena branch does not take the common cleanup path, and
even that path does not release everything constructed. -/
theorem create_cleanup_claim_false :
    (create_toolcontext { envAllOk with pool_ok := false }).ctx = none ∧
    (create_toolcontext { envAllOk with pool_ok := false }).released = [] ∧
    (create_toolcontext { envAllOk with pool_ok := false }).constructed =
      [Resource.cmd_struct, Resource.config_tree, Resource.dev_cache,
       Resource.filter] ∧
    (create_toolcontext
      { envAllOk with fmts := { envAllOk.fmts with text_fmt := none } }).ctx = none ∧
    (create_toolcontext
      { envAllOk with fmts := { envAllOk.fmts with text_fmt := none } }).released =
      [Resource.cmd_struct] ∧
    (create_toolcontext
      { envAllOk with fmts := { envAllOk.fmts with text_fmt := none } }).constructed =
      [Resource.cmd_struct, Resource.config_tree, Resource.dev_cache,
       Resource.filter, Resource.pool] := by
  decide

/-- C1 (amended): construction never returns a context on failure, and
every fatal error branch after the context structure is allocated
converges on the common cleanup path, which frees exactly the context
structure itself — except the memory-arena branch, which returns NULL
without freeing anything (and a failed initial allocation has nothing to
free). -/
theorem create_cleanup_discipline (env : ToolEnv) :
    (create_toolcontext env).ctx.isSome = construction_ok env ∧
    (create_toolcontext env).released =
      (if construction_ok env = true then []
       else if env.malloc_ok && !(arena_alloc_failure env) then [Resource.cmd_struct]
       else []) := by
  cases hm : env.malloc_ok with
  | false =>
    simp [create_toolcontext, construction_ok, arena_alloc_failure, reaches_pool,
      tool_config, hm]
  | true =>
    cases hg : get_env_vars env.lvm_system_dir with
    | none =>
      simp [create_toolcontext, construction_ok, arena_alloc_failure, reaches_pool,
        tool_config, hm, hg]
    | some sd =>
      by_cases hcd : sd ≠ "" ∧ env.create_dir_ok = false
      · simp [create_toolcontext, construction_ok, arena_alloc_failure, reaches_pool,
          tool_config, hm, hg, hcd]
      · cases hic : init_config sd env.cfg with
        | none =>
          simp [create_toolcontext, construction_ok, arena_alloc_failure, reaches_pool,
            tool_config, hm, hg, hcd, hic]
        | some cres =>
          cases hpc : process_config cres.tree env.units_ok with
          | false =>
            simp [create_toolcontext, construction_ok, arena_alloc_failure, reaches_pool,
              tool_config, hm, hg, hcd, hic, hpc]
          | true =>
            cases hdc : (init_dev_cache cres.tree env.devcache).ok with
            | false =>
              simp [create_toolcontext, construction_ok, arena_alloc_failure, reaches_pool,
                tool_config, hm, hg, hcd, hic, hpc, hdc]
            | true =>
              cases hfr : (init_filters sd cres.tree env.filters).ok with
              | false =>
                simp [create_toolcontext, construction_ok, arena_alloc_failure, reaches_pool,
                  tool_config, hm, hg, hcd, hic, hpc, hdc, hfr]
              | true =>
                cases hpo : env.pool_ok with
                | false =>
                  simp [create_toolcontext, construction_ok, arena_alloc_failure, reaches_pool,
                    tool_config, hm, hg, hcd, hic, hpc, hdc, hfr, hpo]
                | true =>
                  cases hfm : init_formats cres.tree env.fmts with
                  | none =>
                    simp [create_toolcontext, construction_ok, arena_alloc_failure, reaches_pool,
                      tool_config, hm, hg, hcd, hic, hpc, hdc, hfr, hpo, hfm]
                  | some fres =>
                    simp [create_toolcontext, construction_ok, arena_alloc_failure, reaches_pool,
                      tool_config, hm, hg, hcd, hic, hpc, hdc, hfr, hpo, hfm]

/-- Witness for C3 at a concrete input: all construction oracles succeed,
`stat` reports modification time 5 against configuration timestamp 3, so
the load is invoked. -/
theorem filters_load_iff_cache_newer_witness :
    (init_filters "/etc/lvm" emptyTree
      ⟨⟨true, true, true⟩, true, fun _ => some 5, 3, true⟩).load_invoked = true :=
  ((filters_load_iff_cache_newer "/etc/lvm" emptyTree
      ⟨⟨true, true, true⟩, true, fun _ => some 5, 3, true⟩).1 (by decide)).mpr
    ⟨5, rfl, by decide⟩

end LVM
